import Mathlib

/-!
Shallow embedding of the realtime conversation/messaging core of the
omnibot-hub-api backend: the Postgres-backed message store
(MessagesService), conversation directory (ConversationsService), the
Socket.IO hub (config/socket.ts) and the webhook ingestion routes
(modules/webhooks), together with theorems settling the frozen claims
about tenant isolation, read-state transitions, event fan-out, webhook
signature validation and the resolve-or-create race.

Modelling conventions:
- database tables are lists of row structures named after the deployed
  Portuguese-named schema (users, canais, conversas, mensagens, customers);
  JSONB metadata columns and the contatos/agents display-name joins are not
  modelled (they never influence the claimed properties);
- UUID generation is modelled by a counter in the DB state;
- NOW() is modelled by an explicit clock argument;
- every state-changing operation returns, besides its result and the new
  database, a trace of the primitive effects (row writes and socket emits)
  in the order the source performs them;
- the English-named-schema fallback branches (error codes 42P01/42703) are
  unreachable once the deployed schema exists and are not modelled;
- the legacy columns written by the channels webhook route (tipo_mensagem,
  cliente_nome) are represented by their schema analogues.
-/

namespace Omni

instance {ε α : Type} [DecidableEq ε] [DecidableEq α] : DecidableEq (Except ε α)
  | .error a, .error b =>
      decidable_of_iff (a = b) ⟨fun h => h ▸ rfl, fun h => by cases h; rfl⟩
  | .error _, .ok _ => .isFalse (fun h => by cases h)
  | .ok _, .error _ => .isFalse (fun h => by cases h)
  | .ok a, .ok b =>
      decidable_of_iff (a = b) ⟨fun h => h ▸ rfl, fun h => by cases h; rfl⟩

/-- Sender types accepted by the REST create-message DTO
(zod enum senderTypes in messages.schema.ts). -/
inductive SenderType
  | customer
  | agent
  | system
  | bot
deriving DecidableEq, Repr

def SenderType.toStr : SenderType → String
  | .customer => "customer"
  | .agent => "agent"
  | .system => "system"
  | .bot => "bot"

/-- Row of the users table (only the columns the core reads). -/
structure UserRow where
  id : String
  tenant_id : String
  name : String
deriving DecidableEq, Repr

/-- Row of the canais table (channel registry consulted by the webhook route). -/
structure CanalRow where
  id : String
  tenant_id : String
  tipo : String
deriving DecidableEq, Repr

/-- Row of the conversas table. -/
structure ConversaRow where
  id : String
  tenant_id : String
  company_id : Option String
  cliente_id : String
  cliente_nome : Option String
  agente_id : Option String
  canal : String
  status : String
  ultima_mensagem : Option String
  ultima_atividade : Nat
  created_at : Nat
  updated_at : Nat
deriving DecidableEq, Repr

/-- Row of the mensagens table. -/
structure MensagemRow where
  id : String
  tenant_id : String
  conversa_id : String
  remetente_tipo : String
  remetente_id : Option String
  conteudo : String
  tipo : String
  lida : Bool
  lida_em : Option Nat
  resposta_para : Option String
  created_at : Nat
deriving DecidableEq, Repr

/-- Row of the customers table used by the n8n/message webhook. -/
structure CustomerRow where
  id : String
  user_id : String
  name : Option String
  phone : Option String
  channel_type : String
  channel_user_id : Option String
deriving DecidableEq, Repr

/-- The database state shared by all operations. nextId feeds generated ids. -/
structure DB where
  users : List UserRow
  canais : List CanalRow
  conversas : List ConversaRow
  mensagens : List MensagemRow
  customers : List CustomerRow
  nextId : Nat
deriving DecidableEq, Repr

def genId (n : Nat) : String := "id-" ++ toString n

/-- JS truthy-or for strings: s or else the default when s is empty. -/
def orElseStr (s dflt : String) : String := if s = "" then dflt else s

def lookupStr (m : List (String × String)) (k : String) : Option String :=
  (m.find? (fun p => p.fst == k)).map (·.snd)

/-- ASCII lowercase, modelling the toLowerCase applied before map lookups
(all mapped keys are ASCII). -/
def toLowerStr (s : String) : String := ⟨s.data.map Char.toLower⟩

/-- senderTypePtToEn map from messages.service.ts. -/
def senderTypePtToEn : List (String × String) :=
  [("cliente", "customer"), ("agente", "agent"), ("sistema", "system"), ("bot", "bot"),
   ("customer", "customer"), ("agent", "agent"), ("system", "system")]

/-- senderTypeEnToPt map from messages.service.ts. -/
def senderTypeEnToPt : List (String × String) :=
  [("customer", "cliente"), ("agent", "agente"), ("system", "sistema"), ("bot", "bot")]

def mapSenderTypeToEn (t : String) : String :=
  match lookupStr senderTypePtToEn (toLowerStr t) with
  | some e => e
  | none => orElseStr t "system"

def mapSenderTypeToPt (t : String) : String :=
  match lookupStr senderTypeEnToPt (toLowerStr t) with
  | some p => p
  | none => orElseStr t "sistema"

/-- statusPtToEn map from conversations.service.ts. -/
def statusPtToEnMap : List (String × String) :=
  [("aberta", "open"), ("em_atendimento", "in_progress"), ("resolvida", "resolved"),
   ("fechada", "closed"), ("open", "open"), ("in_progress", "in_progress"),
   ("resolved", "resolved"), ("closed", "closed")]

/-- statusEnToPt map from conversations.service.ts. -/
def statusEnToPtMap : List (String × String) :=
  [("open", "aberta"), ("in_progress", "em_atendimento"), ("resolved", "resolvida"),
   ("closed", "fechada")]

def mapStatusToEn (s : String) : String :=
  match lookupStr statusPtToEnMap (toLowerStr s) with
  | some e => e
  | none => orElseStr s "open"

def mapStatusToPt (s : String) : String :=
  match lookupStr statusEnToPtMap (toLowerStr s) with
  | some p => p
  | none => orElseStr s "aberta"

/-- API-facing message shape (interface MessageResponse, EN column names);
the best-effort sender display-name expansion is not modelled. -/
structure MessageResponse where
  id : String
  tenant_id : String
  conversation_id : String
  sender_type : String
  sender_id : Option String
  content : String
  type : String
  read : Bool
  reply_to_id : Option String
  created_at : Nat
deriving DecidableEq, Repr

/-- mapMessageToResponse from messages.service.ts. -/
def mapMessageToResponse (m : MensagemRow) : MessageResponse :=
  { id := m.id
    tenant_id := m.tenant_id
    conversation_id := m.conversa_id
    sender_type := mapSenderTypeToEn m.remetente_tipo
    sender_id := m.remetente_id
    content := m.conteudo
    type := orElseStr m.tipo "text"
    read := m.lida
    reply_to_id := m.resposta_para
    created_at := m.created_at }

/-- API-facing conversation shape (interface ConversationResponse);
joined contact/agent fields and unread_count are not modelled. -/
structure ConversationResponse where
  id : String
  tenant_id : String
  customer_id : String
  agent_id : Option String
  channel : String
  status : String
  last_message : Option String
  last_activity : Nat
  created_at : Nat
  updated_at : Nat
deriving DecidableEq, Repr

/-- mapConversationToResponse from conversations.service.ts. -/
def mapConversationToResponse (c : ConversaRow) : ConversationResponse :=
  { id := c.id
    tenant_id := c.tenant_id
    customer_id := c.cliente_id
    agent_id := c.agente_id
    channel := c.canal
    status := mapStatusToEn c.status
    last_message := c.ultima_mensagem
    last_activity := c.ultima_atividade
    created_at := c.created_at
    updated_at := c.updated_at }

/-- Socket event payloads (ServerToClientEvents in config/socket.ts). -/
inductive Payload
  | message (m : MessageResponse)
  | readData (conversationId : String) (messageIds : List String)
  | typingStartData (conversationId userId userName : String)
  | typingStopData (conversationId userId : String)
  | conversationData (c : ConversationResponse)
  | userRef (userId : String)
deriving DecidableEq, Repr

/-- Primitive effects of an operation, in source order. emit models
io.to(room).emit; emitFrom models socket.to(room).emit, which excludes the
sending connection from delivery. -/
inductive Effect
  | insertMensagem (m : MensagemRow)
  | insertConversa (c : ConversaRow)
  | insertCustomer (c : CustomerRow)
  | updatePreview (conversationId preview : String)
  | updateStatusRow (conversationId tenantId statusPt : String)
  | updateAgentRow (conversationId tenantId agentId : String)
  | markReadRows (ids : List String)
  | emit (room event : String) (payload : Payload)
  | emitFrom (senderSid room event : String) (payload : Payload)
deriving DecidableEq, Repr

def Effect.isEmit : Effect → Bool
  | .emit _ _ _ => true
  | .emitFrom _ _ _ _ => true
  | _ => false

/-- Client-facing error taxonomy used by the core. -/
inductive ApiError
  | notFound (what : String)
  | unauthorized (msg : String)
  | internal
deriving DecidableEq, Repr

/-- Outcome of a state-changing operation: result, new database, effect trace. -/
structure OpResult (α : Type) where
  res : Except ApiError α
  db : DB
  trace : List Effect
deriving Repr

instance {α : Type} [DecidableEq α] : DecidableEq (OpResult α) := fun a b =>
  decidable_of_iff (a.res = b.res ∧ a.db = b.db ∧ a.trace = b.trace)
    ⟨fun ⟨h1, h2, h3⟩ => by cases a; cases b; simp_all,
     fun h => by cases h; exact ⟨rfl, rfl, rfl⟩⟩

/-- getTenantId helper (SELECT tenant_id FROM users WHERE id = userId). -/
def getTenantId (db : DB) (userId : String) : Option String :=
  (db.users.find? (fun u => u.id == userId)).map (·.tenant_id)

def conversationRoom (conversationId : String) : String :=
  "conversation:" ++ conversationId

def tenantRoom (tenantId : String) : String :=
  "tenant:" ++ tenantId

/-- emitNewMessage from config/socket.ts: conversation room first, tenant
room second, both carrying the full message. -/
def emitNewMessage (tenantId conversationId : String) (msg : MessageResponse) : List Effect :=
  [.emit (conversationRoom conversationId) "message:new" (.message msg),
   .emit (tenantRoom tenantId) "message:new" (.message msg)]

/-- emitConversationUpdate from config/socket.ts. -/
def emitConversationUpdate (tenantId : String) (c : ConversationResponse) : List Effect :=
  [.emit (tenantRoom tenantId) "conversation:updated" (.conversationData c)]

/-- emitNewConversation from config/socket.ts. -/
def emitNewConversation (tenantId : String) (c : ConversationResponse) : List Effect :=
  [.emit (tenantRoom tenantId) "conversation:new" (.conversationData c)]

/-- ConversationsService.updateLastMessage: fire-and-forget preview update,
scoped by conversation id only (no tenant filter in the source UPDATE). -/
def ConversationsService.updateLastMessage (db : DB) (now : Nat)
    (conversationId message : String) : DB :=
  { db with conversas := db.conversas.map (fun c =>
      if c.id = conversationId then
        { c with ultima_mensagem := some message, ultima_atividade := now, updated_at := now }
      else c) }

/-- CreateMessageDTO after zod validation (createMessageSchema). -/
structure CreateMessageDTO where
  conversationId : String
  senderType : SenderType
  senderId : Option String
  content : String
  type : String
  replyToId : Option String
deriving DecidableEq, Repr

/-- MessagesService.create: resolve tenant, check the conversation belongs
to it, INSERT the row (read flag false exactly for sender type customer),
update the conversation preview, then broadcast message:new. -/
def MessagesService.create (db : DB) (now : Nat) (userId : String)
    (d : CreateMessageDTO) : OpResult MessageResponse :=
  match getTenantId db userId with
  | none => ⟨.error (.notFound "User"), db, []⟩
  | some tenantId =>
    if db.conversas.any (fun c => c.id == d.conversationId && c.tenant_id == tenantId) then
      let row : MensagemRow :=
        { id := genId db.nextId
          tenant_id := tenantId
          conversa_id := d.conversationId
          remetente_tipo := mapSenderTypeToPt d.senderType.toStr
          remetente_id := d.senderId
          conteudo := d.content
          tipo := orElseStr d.type "text"
          lida := if d.senderType = .customer then false else true
          lida_em := none
          resposta_para := d.replyToId
          created_at := now }
      let db1 : DB := { db with mensagens := db.mensagens ++ [row], nextId := db.nextId + 1 }
      let preview := d.content.take 100
      let db2 := ConversationsService.updateLastMessage db1 now d.conversationId preview
      let resp := mapMessageToResponse row
      ⟨.ok resp, db2,
        [.insertMensagem row, .updatePreview d.conversationId preview]
          ++ emitNewMessage tenantId d.conversationId resp⟩
    else
      ⟨.error (.notFound "Conversation"), db, []⟩

/-- Payload of MessagesService.createByTenantId (plain strings, no zod). -/
structure WebhookMessageData where
  senderType : String
  senderId : Option String
  content : String
  type : Option String
deriving DecidableEq, Repr

/-- MessagesService.createByTenantId: INSERT directly with the given tenant
and conversation ids (no ownership check); the only failure mode is the
foreign-key violation when the conversation id does not exist, which the
catch-all converts to null with no effect. -/
def MessagesService.createByTenantId (db : DB) (now : Nat)
    (tenantId conversationId : String) (d : WebhookMessageData) :
    Option MessageResponse × DB × List Effect :=
  let row : MensagemRow :=
    { id := genId db.nextId
      tenant_id := tenantId
      conversa_id := conversationId
      remetente_tipo := mapSenderTypeToPt d.senderType
      remetente_id := d.senderId
      conteudo := d.content
      tipo := d.type.getD "text"
      lida := if d.senderType = "customer" then false else true
      lida_em := none
      resposta_para := none
      created_at := now }
  if db.conversas.any (fun c => c.id == conversationId) then
    let db1 : DB := { db with mensagens := db.mensagens ++ [row], nextId := db.nextId + 1 }
    let preview := d.content.take 100
    let db2 : DB := { db1 with conversas := db1.conversas.map (fun c =>
      if c.id = conversationId then
        { c with ultima_mensagem := some preview, ultima_atividade := now }
      else c) }
    let resp := mapMessageToResponse row
    (some resp, db2,
      [.insertMensagem row, .updatePreview conversationId preview]
        ++ emitNewMessage tenantId conversationId resp)
  else
    (none, db, [])

/-- The WHERE clause of the unnamed-ids mark-read UPDATE and of the
unread-count query: unread customer-authored messages of the conversation
within the tenant. -/
def unreadCustomerHit (tenantId conversationId : String) (m : MensagemRow) : Bool :=
  decide (m.conversa_id = conversationId ∧ m.tenant_id = tenantId ∧ m.lida = false ∧
    (m.remetente_tipo = "cliente" ∨ m.remetente_tipo = "customer"))

/-- The WHERE clause of the named-ids mark-read UPDATE in the service. -/
def namedReadHit (tenantId conversationId : String) (ids : List String)
    (m : MensagemRow) : Bool :=
  decide (m.conversa_id = conversationId ∧ m.tenant_id = tenantId ∧
    m.id ∈ ids ∧ m.lida = false)

/-- MessagesService.markAsRead: with a nonempty messageIds list, marks
exactly the named still-unread rows of the conversation within the tenant;
otherwise marks all unread customer-authored rows. Returns the number of
rows actually updated. -/
def MessagesService.markAsRead (db : DB) (userId conversationId : String)
    (messageIds : Option (List String)) : OpResult Nat :=
  match getTenantId db userId with
  | none => ⟨.error (.notFound "User"), db, []⟩
  | some tenantId =>
    let ids := messageIds.getD []
    if ids.length > 0 then
      let hits := db.mensagens.filter (namedReadHit tenantId conversationId ids)
      let db1 : DB := { db with mensagens := db.mensagens.map (fun m =>
        if namedReadHit tenantId conversationId ids m then { m with lida := true } else m) }
      ⟨.ok hits.length, db1, [.markReadRows (hits.map (·.id))]⟩
    else
      let hits := db.mensagens.filter (unreadCustomerHit tenantId conversationId)
      let db1 : DB := { db with mensagens := db.mensagens.map (fun m =>
        if unreadCustomerHit tenantId conversationId m then { m with lida := true } else m) }
      ⟨.ok hits.length, db1, [.markReadRows (hits.map (·.id))]⟩

/-- MessagesService.getUnreadCount: COUNT of unread customer-authored rows. -/
def MessagesService.getUnreadCount (db : DB) (userId conversationId : String) : Nat :=
  match getTenantId db userId with
  | none => 0
  | some tenantId =>
    (db.mensagens.filter (unreadCustomerHit tenantId conversationId)).length

/-- Query parameters of the message list endpoint (after zod validation);
the before/after cursors are creation-time bounds. -/
structure ListMessagesParams where
  userId : String
  conversationId : String
  page : Nat
  perPage : Nat
  before : Option Nat
  after : Option Nat
deriving DecidableEq, Repr

def insertOrdered {α : Type} (le : α → α → Bool) (a : α) : List α → List α
  | [] => [a]
  | x :: xs => if le a x then a :: x :: xs else x :: insertOrdered le a xs

/-- Insertion sort modelling an ORDER BY clause. -/
def sortOrdered {α : Type} (le : α → α → Bool) (l : List α) : List α :=
  l.foldr (insertOrdered le) []

/-- ORDER BY created_at ASC. -/
def sortAscByTime (l : List MensagemRow) : List MensagemRow :=
  sortOrdered (fun a b => decide (a.created_at ≤ b.created_at)) l

/-- MessagesService.listByConversation: tenant resolution, conversation
ownership check, tenant- and conversation-scoped filter with optional
cursors, ascending creation-time order, offset pagination. -/
def MessagesService.listByConversation (db : DB) (p : ListMessagesParams) :
    Except ApiError (List MessageResponse × Nat) :=
  match getTenantId db p.userId with
  | none => .ok ([], 0)
  | some tenantId =>
    if db.conversas.any (fun c => c.id == p.conversationId && c.tenant_id == tenantId) then
      let hits := db.mensagens.filter (fun m =>
        m.conversa_id == p.conversationId && m.tenant_id == tenantId &&
          (p.before.all (fun b => decide (m.created_at < b))) &&
          (p.after.all (fun a => decide (a < m.created_at))))
      let offset := (p.page - 1) * p.perPage
      let pageRows := ((sortAscByTime hits).drop offset).take p.perPage
      .ok (pageRows.map mapMessageToResponse, hits.length)
    else
      .error (.notFound "Conversation")

/-- MessagesService.getById: lookup scoped by id and tenant. -/
def MessagesService.getById (db : DB) (id userId : String) :
    Except ApiError MessageResponse :=
  match getTenantId db userId with
  | none => .error (.notFound "Message")
  | some tenantId =>
    match db.mensagens.find? (fun m => m.id == id && m.tenant_id == tenantId) with
    | some m => .ok (mapMessageToResponse m)
    | none => .error (.notFound "Message")

/-- Query parameters of the conversation list endpoint; the contact-join
search filter is not modelled (it only narrows the result further). -/
structure ListConversationsParams where
  userId : String
  page : Nat
  perPage : Nat
  status : Option String
  channel : Option String
  agentId : Option String
  customerId : Option String
deriving DecidableEq, Repr

/-- ORDER BY ultima_atividade DESC. -/
def sortDescByActivity (l : List ConversaRow) : List ConversaRow :=
  sortOrdered (fun a b => decide (b.ultima_atividade ≤ a.ultima_atividade)) l

/-- ConversationsService.list: tenant-scoped filter with the optional
status/channel/agent/customer conditions, latest-activity order, offset
pagination. -/
def ConversationsService.list (db : DB) (p : ListConversationsParams) :
    List ConversationResponse × Nat :=
  match getTenantId db p.userId with
  | none => ([], 0)
  | some tenantId =>
    let hits := db.conversas.filter (fun c =>
      c.tenant_id == tenantId &&
        (p.status.all (fun s => c.status == mapStatusToPt s)) &&
        (p.channel.all (fun ch => c.canal == ch)) &&
        (p.agentId.all (fun a => c.agente_id == some a)) &&
        (p.customerId.all (fun cu => c.cliente_id == cu)))
    let offset := (p.page - 1) * p.perPage
    let pageRows := ((sortDescByActivity hits).drop offset).take p.perPage
    (pageRows.map mapConversationToResponse, hits.length)

/-- ConversationsService.getById: lookup scoped by id and tenant. -/
def ConversationsService.getById (db : DB) (id userId : String) :
    Except ApiError ConversationResponse :=
  match getTenantId db userId with
  | none => .error (.notFound "Conversation")
  | some tenantId =>
    match db.conversas.find? (fun c => c.id == id && c.tenant_id == tenantId) with
    | some c => .ok (mapConversationToResponse c)
    | none => .error (.notFound "Conversation")

/-- ConversationsService.updateStatus: tenant-scoped single-row UPDATE, then
re-reads the row via getById. The trace records the row update; the source
emits no socket event here. -/
def ConversationsService.updateStatus (db : DB) (now : Nat)
    (id userId status : String) : OpResult ConversationResponse :=
  match getTenantId db userId with
  | none => ⟨.error (.notFound "User"), db, []⟩
  | some tenantId =>
    let dbStatus := mapStatusToPt status
    if db.conversas.any (fun c => c.id == id && c.tenant_id == tenantId) then
      let db1 : DB := { db with conversas := db.conversas.map (fun c =>
        if c.id = id ∧ c.tenant_id = tenantId then
          { c with status := dbStatus, updated_at := now, ultima_atividade := now }
        else c) }
      match ConversationsService.getById db1 id userId with
      | .ok resp => ⟨.ok resp, db1, [.updateStatusRow id tenantId dbStatus]⟩
      | .error e => ⟨.error e, db1, [.updateStatusRow id tenantId dbStatus]⟩
    else
      ⟨.error (.notFound "Conversation"), db, []⟩

/-- ConversationsService.assignAgent: combined agent assignment and forced
em_atendimento status in one tenant-scoped UPDATE, then getById. The source
emits no socket event here. -/
def ConversationsService.assignAgent (db : DB) (now : Nat)
    (id userId agentId : String) : OpResult ConversationResponse :=
  match getTenantId db userId with
  | none => ⟨.error (.notFound "User"), db, []⟩
  | some tenantId =>
    if db.conversas.any (fun c => c.id == id && c.tenant_id == tenantId) then
      let db1 : DB := { db with conversas := db.conversas.map (fun c =>
        if c.id = id ∧ c.tenant_id = tenantId then
          { c with agente_id := some agentId, status := "em_atendimento",
                   updated_at := now, ultima_atividade := now }
        else c) }
      match ConversationsService.getById db1 id userId with
      | .ok resp => ⟨.ok resp, db1, [.updateAgentRow id tenantId agentId]⟩
      | .error e => ⟨.error e, db1, [.updateAgentRow id tenantId agentId]⟩
    else
      ⟨.error (.notFound "Conversation"), db, []⟩

/-- A live authenticated socket connection: tenant resolved once at
handshake and fixed; rooms is the current membership set. -/
structure Session where
  sid : String
  userId : String
  tenantId : String
  rooms : List String
deriving DecidableEq, Repr

/-- Sessions a single emit effect is delivered to: members of the target
room; socket.to additionally excludes the sending connection. -/
def emitRecipients (sessions : List Session) : Effect → List Session
  | .emit room _ _ => sessions.filter (fun s => decide (room ∈ s.rooms))
  | .emitFrom sid room _ _ =>
      sessions.filter (fun s => decide (room ∈ s.rooms ∧ s.sid ≠ sid))
  | _ => []

/-- conversation:join handler: membership is granted only when a
conversation with that id exists under the connection tenant (checked
against the database at join time). -/
def socketConversationJoin (db : DB) (s : Session) (conversationId : String) : Session :=
  if db.conversas.any (fun c => c.id == conversationId && c.tenant_id == s.tenantId) then
    { s with rooms := s.rooms ++ [conversationRoom conversationId] }
  else s

/-- conversation:leave handler. -/
def socketConversationLeave (s : Session) (conversationId : String) : Session :=
  { s with rooms := s.rooms.filter (fun r => r != conversationRoom conversationId) }

/-- typing:start handler: looks up the display name and relays to the
conversation room of the client-supplied id, with no ownership check. -/
def socketTypingStart (db : DB) (s : Session) (conversationId : String) : List Effect :=
  let userName := ((db.users.find? (fun u => u.id == s.userId)).map (·.name)).getD "Usuário"
  [.emitFrom s.sid (conversationRoom conversationId) "typing:start"
    (.typingStartData conversationId s.userId userName)]

/-- typing:stop handler: relays to the conversation room of the
client-supplied id, with no ownership check. -/
def socketTypingStop (s : Session) (conversationId : String) : List Effect :=
  [.emitFrom s.sid (conversationRoom conversationId) "typing:stop"
    (.typingStopData conversationId s.userId)]

/-- The WHERE clause of the socket mark-read UPDATE with named ids: note the
source applies no lida = false filter on this path. -/
def socketNamedReadHit (tenantId conversationId : String) (ids : List String)
    (m : MensagemRow) : Bool :=
  decide (m.conversa_id = conversationId ∧ m.tenant_id = tenantId ∧ m.id ∈ ids)

/-- message:read socket handler: named ids update those rows of the
conversation within the session tenant; with ids omitted, all unread
customer-authored rows. Then message:read is relayed to the other members
of the conversation room. -/
def socketMessageRead (db : DB) (now : Nat) (s : Session) (conversationId : String)
    (messageIds : Option (List String)) : DB × List Effect :=
  let ids := messageIds.getD []
  let hit : MensagemRow → Bool :=
    if ids.length > 0 then socketNamedReadHit s.tenantId conversationId ids
    else unreadCustomerHit s.tenantId conversationId
  let db1 : DB := { db with mensagens := db.mensagens.map (fun m =>
    if hit m then { m with lida := true, lida_em := some now } else m) }
  (db1,
    [.markReadRows ((db.mensagens.filter hit).map (·.id)),
     .emitFrom s.sid (conversationRoom conversationId) "message:read"
       (.readData conversationId ids)])

/-- Outcome of the signature middleware: call next, reject with
UnauthorizedError, or raise (crypto.timingSafeEqual throws when the two
buffers differ in length). -/
inductive SigCheck
  | pass
  | unauthorizedSig (msg : String)
  | thrown
deriving DecidableEq, Repr

/-- validateWebhookSignature from the webhooks routes: reads the
x-webhook-signature header, falling back to x-webhook-secret; no configured
secret disables the check; otherwise accepts the exact secret value or a
sha256= HMAC of the JSON-serialized request body, compared by
crypto.timingSafeEqual. hmacHex abstracts crypto.createHmac sha256 hex
digests: hmacHex key text. -/
def validateWebhookSignature (hmacHex : String → String → String)
    (secretCfg : Option String) (sigHeader secretHeader : Option String)
    (bodyJson : String) : SigCheck :=
  let signature := sigHeader <|> secretHeader
  match secretCfg with
  | none => .pass
  | some secret =>
    match signature with
    | none => .unauthorizedSig "Missing webhook signature"
    | some sig =>
      if sig = secret then .pass
      else if sig.startsWith "sha256=" then
        let expected := "sha256=" ++ hmacHex secret bodyJson
        if sig.length ≠ expected.length then .thrown
        else if sig = expected then .pass
        else .unauthorizedSig "Invalid webhook signature"
      else .unauthorizedSig "Invalid webhook signature"

/-- Body of the channels webhook route (from, message, metadata fields the
handler reads); msgJson stands for JSON.stringify of the message object. -/
structure ChannelWebhookBody where
  fromId : Option String
  fromName : Option String
  fromPhone : Option String
  msgText : Option String
  msgType : Option String
  msgJson : String
deriving DecidableEq, Repr

/-- Success payload of the channels webhook route. -/
structure WebhookReceipt where
  conversationId : String
deriving DecidableEq, Repr

/-- The SELECT of the find-or-create block in the channels webhook route:
lookup by (cliente_id, canal, tenant_id). -/
def convKeyLookup (db : DB) (clienteKey canal tenantId : String) : Option String :=
  (db.conversas.find? (fun c =>
    c.cliente_id == clienteKey && c.canal == canal && c.tenant_id == tenantId)).map (·.id)

/-- The INSERT of the find-or-create block: a fresh conversa row with status
aberta. The deployed conversas table declares no uniqueness constraint on
(tenant_id, canal, cliente_id), so this INSERT succeeds even when a row for
the same key already exists. -/
def insertConversaForKey (db : DB) (now : Nat) (tenantId canal clienteKey : String)
    (clienteNome : String) : String × DB × Effect :=
  let row : ConversaRow :=
    { id := genId db.nextId
      tenant_id := tenantId
      company_id := none
      cliente_id := clienteKey
      cliente_nome := some clienteNome
      agente_id := none
      canal := canal
      status := "aberta"
      ultima_mensagem := none
      ultima_atividade := now
      created_at := now
      updated_at := now }
  (row.id, { db with conversas := db.conversas ++ [row], nextId := db.nextId + 1 },
    .insertConversa row)

/-- Handler of POST /webhooks/channels/:type/:id: resolve the channel to its
tenant, find-or-create the conversation for (from id or phone, channel
type, tenant), INSERT the customer message, respond. The source performs no
preview update and calls no socket emit on this path. -/
def webhookChannelsHandler (db : DB) (now : Nat) (typeParam idParam : String)
    (body : ChannelWebhookBody) : OpResult WebhookReceipt :=
  match db.canais.find? (fun k => k.id == idParam && k.tipo == typeParam) with
  | none => ⟨.error (.notFound "Channel"), db, []⟩
  | some chan =>
    let tenantId := chan.tenant_id
    let clienteKey := (body.fromId <|> body.fromPhone).getD ""
    let found := convKeyLookup db clienteKey typeParam tenantId
    let step :=
      match found with
      | some cid => (cid, db, ([] : List Effect))
      | none =>
        let r := insertConversaForKey db now tenantId typeParam clienteKey
          (body.fromName.getD "Cliente")
        (r.fst, r.snd.fst, [r.snd.snd])
    let conversationId := step.fst
    let db1 := step.snd.fst
    let row : MensagemRow :=
      { id := genId db1.nextId
        tenant_id := tenantId
        conversa_id := conversationId
        remetente_tipo := "customer"
        remetente_id := none
        conteudo := body.msgText.getD body.msgJson
        tipo := body.msgType.getD "text"
        lida := false
        lida_em := none
        resposta_para := none
        created_at := now }
    let db2 : DB := { db1 with mensagens := db1.mensagens ++ [row], nextId := db1.nextId + 1 }
    ⟨.ok ⟨conversationId⟩, db2, step.snd.snd ++ [.insertMensagem row]⟩

/-- Route wrapper for POST /webhooks/channels/:type/:id: the route is
registered WITHOUT the validateWebhookSignature middleware, so the
signature-related arguments are never consulted. -/
def webhookChannelsRoute (hmacHex : String → String → String)
    (secretCfg sigHeader secretHeader : Option String) (bodyJson : String)
    (db : DB) (now : Nat) (typeParam idParam : String)
    (body : ChannelWebhookBody) : OpResult WebhookReceipt :=
  webhookChannelsHandler db now typeParam idParam body

/-- Body of the n8n/message webhook (from and channel fields the handler
reads). -/
structure N8nMessageBody where
  channel : String
  fromId : Option String
  fromName : Option String
  fromPhone : Option String
deriving DecidableEq, Repr

/-- Success payload of the n8n/message webhook. -/
structure N8nReceipt where
  customerId : Option String
deriving DecidableEq, Repr

/-- Handler of POST /webhooks/n8n/message: find the customer by channel
identity (SQL equality never matches a NULL parameter), create one owned by
the first user when absent; the webhook_logs insert is not modelled. -/
def webhookN8nMessageHandler (db : DB) (b : N8nMessageBody) : OpResult N8nReceipt :=
  let found := b.fromId.bind (fun fid =>
    db.customers.find? (fun c => c.channel_user_id == some fid && c.channel_type == b.channel))
  match found with
  | some c => ⟨.ok ⟨some c.id⟩, db, []⟩
  | none =>
    match db.users.head? with
    | some u =>
      let row : CustomerRow :=
        { id := genId db.nextId
          user_id := u.id
          name := b.fromName
          phone := b.fromPhone
          channel_type := b.channel
          channel_user_id := b.fromId }
      ⟨.ok ⟨some row.id⟩,
        { db with customers := db.customers ++ [row], nextId := db.nextId + 1 },
        [.insertCustomer row]⟩
    | none => ⟨.ok ⟨none⟩, db, []⟩

/-- Route wrapper for POST /webhooks/n8n/message: registered WITH the
validateWebhookSignature middleware, which runs before the handler touches
any state. -/
def webhookN8nMessageRoute (hmacHex : String → String → String)
    (secretCfg sigHeader secretHeader : Option String) (bodyJson : String)
    (db : DB) (b : N8nMessageBody) : OpResult N8nReceipt :=
  match validateWebhookSignature hmacHex secretCfg sigHeader secretHeader bodyJson with
  | .pass => webhookN8nMessageHandler db b
  | .unauthorizedSig m => ⟨.error (.unauthorized m), db, []⟩
  | .thrown => ⟨.error .internal, db, []⟩

/-- The (tenant, channel, customer) key of the find-or-create block. -/
structure ConvKey where
  tenantId : String
  canal : String
  clienteKey : String
deriving DecidableEq, Repr

/-- Progress of one concurrent webhook delivery through the find-or-create
block: before its SELECT, after its SELECT, or resolved to an id. -/
inductive RacePhase
  | start
  | looked (found : Option String)
  | finished (conversationId : String)
deriving DecidableEq, Repr

/-- Interleaved state of several concurrent find-or-create executions over
one shared database. -/
structure RaceState where
  db : DB
  now : Nat
  phases : List RacePhase
deriving Repr

/-- Client i performs its SELECT: records what currently exists for the key. -/
def raceLookupStep (k : ConvKey) (st : RaceState) (i : Nat) : RaceState :=
  match st.phases.get? i with
  | some .start =>
    { st with phases :=
        st.phases.set i (.looked (convKeyLookup st.db k.clienteKey k.canal k.tenantId)) }
  | _ => st

/-- Client i acts on its SELECT result: INSERT a fresh conversa when it saw
none (the INSERT cannot fail: no uniqueness constraint covers the key), or
adopt the id it saw. -/
def raceResolveStep (k : ConvKey) (st : RaceState) (i : Nat) : RaceState :=
  match st.phases.get? i with
  | some (.looked none) =>
    let r := insertConversaForKey st.db st.now k.tenantId k.canal k.clienteKey "Cliente"
    { st with db := r.snd.fst, phases := st.phases.set i (.finished r.fst) }
  | some (.looked (some cid)) =>
    { st with phases := st.phases.set i (.finished cid) }
  | _ => st

inductive RaceOp
  | lookup (i : Nat)
  | resolve (i : Nat)
deriving DecidableEq, Repr

def raceRun (k : ConvKey) (st : RaceState) : List RaceOp → RaceState
  | [] => st
  | .lookup i :: rest => raceRun k (raceLookupStep k st i) rest
  | .resolve i :: rest => raceRun k (raceResolveStep k st i) rest

def countConversationsForKey (db : DB) (k : ConvKey) : Nat :=
  (db.conversas.filter (fun c =>
    decide (c.cliente_id = k.clienteKey ∧ c.canal = k.canal ∧ c.tenant_id = k.tenantId))).length

/-! Concrete fixtures used to evaluate the operations on explicit inputs. -/

def userA : UserRow := ⟨"u1", "t1", "Alice"⟩

def userB : UserRow := ⟨"u2", "t2", "Bruna"⟩

def convRowA : ConversaRow :=
  { id := "c1", tenant_id := "t1", company_id := none, cliente_id := "cust1",
    cliente_nome := none, agente_id := none, canal := "whatsapp", status := "aberta",
    ultima_mensagem := none, ultima_atividade := 0, created_at := 0, updated_at := 0 }

def convRowB : ConversaRow :=
  { convRowA with id := "c2", tenant_id := "t2", cliente_id := "cust2" }

/-- One tenant, one conversation, one user. -/
def dbT1 : DB := ⟨[userA], [], [convRowA], [], [], 0⟩

/-- The owning user of tenant t1 next to a conversation of tenant t2. -/
def dbCross : DB := ⟨[userA], [], [convRowB], [], [], 0⟩

/-- A registered whatsapp channel of tenant t1 and an empty store. -/
def dbHook : DB := ⟨[], [⟨"ch1", "t1", "whatsapp"⟩], [], [], [], 0⟩

def hookBody : ChannelWebhookBody :=
  ⟨some "5511999", some "Ana", none, some "Oi", some "text", "rawjson"⟩

def raceKey : ConvKey := ⟨"t1", "whatsapp", "5511999"⟩

def raceStart : RaceState := ⟨dbHook, 5, [.start, .start]⟩

def msgRowT1 : MensagemRow :=
  ⟨"m1", "t1", "c1", "cliente", none, "oi", "text", false, none, none, 1⟩

def msgRowT2 : MensagemRow :=
  ⟨"m2", "t2", "c2", "cliente", none, "ola", "text", false, none, none, 2⟩

def msgRowT2agent : MensagemRow :=
  ⟨"m3", "t2", "c2", "agente", some "ag1", "resp", "text", false, none, none, 3⟩

/-- Two tenants side by side: a t1 conversation with a t1 customer message,
and a t2 conversation with one unread customer and one agent message. -/
def dbIso : DB := ⟨[userB], [], [convRowA, convRowB], [msgRowT1, msgRowT2, msgRowT2agent], [], 0⟩

def c1Dto : CreateMessageDTO := ⟨"c1", .agent, some "ag1", "hello", "text", none⟩

def c1Row : MensagemRow :=
  ⟨"id-0", "t1", "c1", "agente", some "ag1", "hello", "text", true, none, none, 5⟩

def c1Resp : MessageResponse := mapMessageToResponse c1Row

def c4Dto : CreateMessageDTO := ⟨"c1", .customer, none, "oi", "text", none⟩

def c4Row : MensagemRow :=
  ⟨"id-0", "t1", "c1", "cliente", none, "oi", "text", false, none, none, 5⟩

def c4Resp : MessageResponse := mapMessageToResponse c4Row

/-- A connection of tenant t1. -/
def senderA : Session := ⟨"sA", "uA", "t1", []⟩

/-- A connection of tenant t2 viewing the room of conversation c9. -/
def viewerB : Session := ⟨"sB", "uB", "t2", [conversationRoom "c9"]⟩

def typingEffB : Effect :=
  .emitFrom "sA" (conversationRoom "c9") "typing:start"
    (.typingStartData "c9" "uA" "Usuário")

/-! Helper lemmas shared by several claims. -/

/-- The channels webhook handler never emits any socket event: its trace
holds only row inserts. -/
theorem webhookChannelsHandler_no_emit (db : DB) (now : Nat) (typeParam idParam : String)
    (body : ChannelWebhookBody) :
    (webhookChannelsHandler db now typeParam idParam body).trace.filter Effect.isEmit = [] := by
  unfold webhookChannelsHandler
  split
  · rfl
  · dsimp only
    split <;> rfl

/-- Membership in an insertion step comes from the new element or the list. -/
theorem mem_insertOrdered {α : Type} {le : α → α → Bool} {x a : α} {l : List α}
    (h : x ∈ insertOrdered le a l) : x = a ∨ x ∈ l := by
  induction l with
  | nil =>
    simp only [insertOrdered, List.mem_singleton] at h
    exact .inl h
  | cons y ys ih =>
    simp only [insertOrdered] at h
    split at h
    · exact List.mem_cons.mp h
    · rcases List.mem_cons.mp h with h | h
      · exact .inr (by simp [h])
      · rcases ih h with h | h
        · exact .inl h
        · exact .inr (by simp [h])

/-- The insertion sort only permutes: membership is preserved. -/
theorem mem_sortOrdered {α : Type} {le : α → α → Bool} {x : α} {l : List α}
    (h : x ∈ sortOrdered le l) : x ∈ l := by
  induction l with
  | nil => simp [sortOrdered] at h
  | cons y ys ih =>
    have h2 : x ∈ insertOrdered le y (sortOrdered le ys) := h
    rcases mem_insertOrdered h2 with h3 | h3
    · simp [h3]
    · exact List.mem_cons_of_mem _ (ih h3)

/-- After the mark-all update, no row still matches the unread-customer
predicate: re-marking finds nothing. -/
theorem filter_unread_after_mark (t cid : String) (l : List MensagemRow) :
    (l.map (fun m =>
      if unreadCustomerHit t cid m then { m with lida := true } else m)).filter
      (unreadCustomerHit t cid) = [] := by
  induction l with
  | nil => rfl
  | cons x xs ih =>
    have hx : unreadCustomerHit t cid
        (if unreadCustomerHit t cid x then { x with lida := true } else x) = false := by
      cases hc : unreadCustomerHit t cid x with
      | true => simp [hc, unreadCustomerHit]
      | false => simpa [hc] using hc
    simp only [List.map_cons, List.filter_cons, hx]
    exact ih

/-- A row matched by the unnamed mark-read predicate is in the tenant. -/
theorem unreadCustomerHit_tenant {t cid : String} {m : MensagemRow}
    (h : unreadCustomerHit t cid m = true) : m.tenant_id = t :=
  (of_decide_eq_true h).2.1

/-- A row matched by the named mark-read predicate is in the tenant. -/
theorem namedReadHit_tenant {t cid : String} {ids : List String} {m : MensagemRow}
    (h : namedReadHit t cid ids m = true) : m.tenant_id = t :=
  (of_decide_eq_true h).2.1

/-! Claim theorems. -/

/-- Claim C3: every Message Store and Conversation Directory operation is
filtered by the tenant resolved from the calling user, so an entity created
under a different tenant is never contained in a result: listed
conversations and messages and getById results carry the caller tenant,
unreadCount counts only caller-tenant rows, markAsRead leaves every row of
any other tenant unchanged, and append succeeds only when the target
conversation belongs to the caller tenant (and then writes a row of that
tenant). -/
theorem C3_tenant_isolation (db : DB) (u t2 : String)
    (h : getTenantId db u = some t2) :
    (∀ p : ListConversationsParams, p.userId = u →
      ∀ c ∈ (ConversationsService.list db p).fst, c.tenant_id = t2) ∧
    (∀ id c, ConversationsService.getById db id u = .ok c → c.tenant_id = t2) ∧
    (∀ p : ListMessagesParams, p.userId = u →
      ∀ out, MessagesService.listByConversation db p = .ok out →
        ∀ m ∈ out.fst, m.tenant_id = t2) ∧
    (∀ id m, MessagesService.getById db id u = .ok m → m.tenant_id = t2) ∧
    (∀ cid, MessagesService.getUnreadCount db u cid =
      ((db.mensagens.filter (fun m => m.tenant_id == t2)).filter
        (unreadCustomerHit t2 cid)).length) ∧
    (∀ cid ids, List.Forall₂
      (fun (a b : MensagemRow) => a.tenant_id ≠ t2 → b = a)
      db.mensagens (MessagesService.markAsRead db u cid ids).db.mensagens) ∧
    (∀ now d m, (MessagesService.create db now u d).res = .ok m →
      m.tenant_id = t2 ∧
      ∃ c ∈ db.conversas, c.id = d.conversationId ∧ c.tenant_id = t2) := by
  refine ⟨?_, ?_, ?_, ?_, ?_, ?_, ?_⟩
  · intro p hp c hc
    unfold ConversationsService.list at hc
    rw [hp, h] at hc
    dsimp only at hc
    rcases List.mem_map.mp hc with ⟨row, hrow, hmap⟩
    have h1 := mem_sortOrdered (List.drop_subset _ _ (List.take_subset _ _ hrow))
    have h2 := (List.mem_filter.mp h1).2
    simp only [Bool.and_eq_true, beq_iff_eq] at h2
    rw [← hmap]
    exact h2.1.1.1.1
  · intro id c hc
    unfold ConversationsService.getById at hc
    rw [h] at hc
    dsimp only at hc
    cases hfind : db.conversas.find? (fun c => c.id == id && c.tenant_id == t2) with
    | none => rw [hfind] at hc; simp at hc
    | some row =>
      rw [hfind] at hc
      dsimp only at hc
      injection hc with hc
      have h2 := List.find?_some hfind
      simp only [Bool.and_eq_true, beq_iff_eq] at h2
      rw [← hc]
      exact h2.2
  · intro p hp out hout m hm
    unfold MessagesService.listByConversation at hout
    rw [hp, h] at hout
    dsimp only at hout
    by_cases hc :
        (db.conversas.any (fun c => c.id == p.conversationId && c.tenant_id == t2)) = true
    · rw [if_pos hc] at hout
      injection hout with hout
      rw [← hout] at hm
      rcases List.mem_map.mp hm with ⟨row, hrow, hmap⟩
      have h1 := mem_sortOrdered (List.drop_subset _ _ (List.take_subset _ _ hrow))
      have h2 := (List.mem_filter.mp h1).2
      simp only [Bool.and_eq_true, beq_iff_eq] at h2
      rw [← hmap]
      exact h2.1.1.2
    · rw [if_neg hc] at hout
      simp at hout
  · intro id m hm
    unfold MessagesService.getById at hm
    rw [h] at hm
    dsimp only at hm
    cases hfind : db.mensagens.find? (fun m => m.id == id && m.tenant_id == t2) with
    | none => rw [hfind] at hm; simp at hm
    | some row =>
      rw [hfind] at hm
      dsimp only at hm
      injection hm with hm
      have h2 := List.find?_some hfind
      simp only [Bool.and_eq_true, beq_iff_eq] at h2
      rw [← hm]
      exact h2.2
  · intro cid
    unfold MessagesService.getUnreadCount
    rw [h]
    dsimp only
    rw [List.filter_filter]
    congr 1
    apply List.filter_congr
    intro m _
    cases hu : unreadCustomerHit t2 cid m with
    | true => simp [unreadCustomerHit_tenant hu]
    | false => simp [hu]
  · intro cid ids
    unfold MessagesService.markAsRead
    rw [h]
    dsimp only
    split
    · dsimp only
      rw [List.forall₂_map_right_iff]
      rw [List.forall₂_same]
      intro x hx hne
      rw [if_neg]
      intro hh
      exact hne (namedReadHit_tenant hh)
    · dsimp only
      rw [List.forall₂_map_right_iff]
      rw [List.forall₂_same]
      intro x hx hne
      rw [if_neg]
      intro hh
      exact hne (unreadCustomerHit_tenant hh)
  · intro now d m hm
    unfold MessagesService.create at hm
    rw [h] at hm
    dsimp only at hm
    by_cases hc :
        (db.conversas.any (fun c => c.id == d.conversationId && c.tenant_id == t2)) = true
    · rw [if_pos hc] at hm
      injection hm with hm
      constructor
      · rw [← hm]; rfl
      · rcases List.any_eq_true.mp hc with ⟨c, hcm, hcp⟩
        simp only [Bool.and_eq_true, beq_iff_eq] at hcp
        exact ⟨c, hcm, hcp.1, hcp.2⟩
    · rw [if_neg hc] at hm
      simp at hm

/-- Claim C1 (amended): on the authenticated REST path a successful append
first persists the row, then updates the conversation preview, and only
then broadcasts message:new carrying the full message to the conversation
room and to the tenant room, in that order; the webhook ingestion route,
however, emits nothing on a successful append. -/
theorem C1_rest_broadcast_order_webhook_silent :
    (∀ (db : DB) (now : Nat) (uid : String) (d : CreateMessageDTO) (m : MessageResponse),
      (MessagesService.create db now uid d).res = .ok m →
      ∃ row : MensagemRow,
        m = mapMessageToResponse row ∧
        (MessagesService.create db now uid d).db.mensagens = db.mensagens ++ [row] ∧
        (MessagesService.create db now uid d).trace =
          [.insertMensagem row,
           .updatePreview d.conversationId (d.content.take 100),
           .emit (conversationRoom d.conversationId) "message:new" (.message m),
           .emit (tenantRoom m.tenant_id) "message:new" (.message m)]) ∧
    (∀ (db : DB) (now : Nat) (ty idp : String) (b : ChannelWebhookBody),
      (webhookChannelsHandler db now ty idp b).trace.filter Effect.isEmit = []) := by
  constructor
  · intro db now uid d m h
    unfold MessagesService.create at h ⊢
    cases hg : getTenantId db uid with
    | none => rw [hg] at h; simp at h
    | some t =>
      rw [hg] at h
      dsimp only at h ⊢
      by_cases hc :
          (db.conversas.any (fun c => c.id == d.conversationId && c.tenant_id == t)) = true
      · rw [if_pos hc] at h ⊢
        injection h with h
        subst h
        exact ⟨_, rfl, rfl, rfl⟩
      · rw [if_neg hc] at h
        simp at h
  · intro db now ty idp b
    exact webhookChannelsHandler_no_emit db now ty idp b

/-- Claim C7 (amended): neither updateStatus nor assignAgent emits any
socket event, and the webhook conversation creation emits none either; the
socket module defines emitConversationUpdate and emitNewConversation, which
would target the tenant room with conversation:updated and
conversation:new, but no operation invokes them. -/
theorem C7_no_conversation_events :
    (∀ (db : DB) (now : Nat) (id uid st : String),
      (ConversationsService.updateStatus db now id uid st).trace.filter Effect.isEmit = []) ∧
    (∀ (db : DB) (now : Nat) (id uid ag : String),
      (ConversationsService.assignAgent db now id uid ag).trace.filter Effect.isEmit = []) ∧
    (∀ (db : DB) (now : Nat) (ty idp : String) (b : ChannelWebhookBody),
      (webhookChannelsHandler db now ty idp b).trace.filter Effect.isEmit = []) ∧
    (∀ (t : String) (c : ConversationResponse),
      emitConversationUpdate t c =
        [.emit (tenantRoom t) "conversation:updated" (.conversationData c)]) ∧
    (∀ (t : String) (c : ConversationResponse),
      emitNewConversation t c =
        [.emit (tenantRoom t) "conversation:new" (.conversationData c)]) := by
  refine ⟨?_, ?_, ?_, fun t c => rfl, fun t c => rfl⟩
  · intro db now id uid st
    unfold ConversationsService.updateStatus
    split
    · rfl
    · dsimp only
      split
      · split <;> rfl
      · rfl
  · intro db now id uid ag
    unfold ConversationsService.assignAgent
    split
    · rfl
    · split
      · dsimp only
        split <;> rfl
      · rfl
  · intro db now ty idp b
    exact webhookChannelsHandler_no_emit db now ty idp b

/-- Claim C8 (amended): the signature gate covers the n8n webhook routes
only. There, no configured secret disables the check; a missing header is
rejected as Unauthorized before the handler touches any state; the exact
secret value is accepted; and any accepted request either runs with no
configured secret or presented the exact secret or the sha256= HMAC of the
JSON-serialized body. The channels route runs its handler for every
signature input: it performs no signature validation at all. -/
theorem C8_signature_gate :
    (∀ (hm : String → String → String) (sig sh : Option String) (bj : String),
      validateWebhookSignature hm none sig sh bj = .pass) ∧
    (∀ (hm : String → String → String) (sec bj : String) (db : DB) (b : N8nMessageBody),
      webhookN8nMessageRoute hm (some sec) none none bj db b =
        ⟨.error (.unauthorized "Missing webhook signature"), db, []⟩) ∧
    (∀ (hm : String → String → String) (sec : String) (sh : Option String) (bj : String),
      validateWebhookSignature hm (some sec) (some sec) sh bj = .pass) ∧
    (∀ (hm : String → String → String) (secCfg sig sh : Option String) (bj : String),
      validateWebhookSignature hm secCfg sig sh bj = .pass →
      secCfg = none ∨ ∃ sec, secCfg = some sec ∧
        ((sig <|> sh) = some sec ∨ (sig <|> sh) = some ("sha256=" ++ hm sec bj))) ∧
    (∀ (hm : String → String → String) (secCfg sig sh : Option String) (bj : String)
        (db : DB) (now : Nat) (ty idp : String) (b : ChannelWebhookBody),
      webhookChannelsRoute hm secCfg sig sh bj db now ty idp b =
        webhookChannelsHandler db now ty idp b) := by
  refine ⟨fun hm sig sh bj => rfl, fun hm sec bj db b => rfl, ?_, ?_, ?_⟩
  · intro hm sec sh bj
    simp [validateWebhookSignature]
  · intro hm secCfg sig sh bj h
    unfold validateWebhookSignature at h
    cases secCfg with
    | none => exact .inl rfl
    | some sec =>
      right
      refine ⟨sec, rfl, ?_⟩
      dsimp only at h
      cases hsig : (sig <|> sh) with
      | none => rw [hsig] at h; exact absurd h (by simp)
      | some s =>
        rw [hsig] at h
        dsimp only at h
        by_cases h1 : s = sec
        · exact .inl (congrArg some h1)
        · rw [if_neg h1] at h
          by_cases h2 : s.startsWith "sha256="
          · rw [if_pos h2] at h
            by_cases h3 : s.length ≠ ("sha256=" ++ hm sec bj).length
            · rw [if_pos h3] at h; exact absurd h (by simp)
            · rw [if_neg h3] at h
              by_cases h4 : s = "sha256=" ++ hm sec bj
              · exact .inr (congrArg some h4)
              · rw [if_neg h4] at h; exact absurd h (by simp)
          · rw [if_neg h2] at h; exact absurd h (by simp)
  · intro hm secCfg sig sh bj db now ty idp b
    rfl

/-- Claim C9 (code bug): the find-or-create block of the channels webhook
route is an unserialized check-then-insert with no uniqueness constraint
behind it. Two concurrent identical deliveries whose SELECTs both run
before either INSERT create two conversations for the same
(tenant, channel, customer) key, while the sequential schedule creates one
and resolves both calls to the same id. -/
theorem C9_race_two_conversations :
    countConversationsForKey
      (raceRun raceKey raceStart [.lookup 0, .lookup 1, .resolve 0, .resolve 1]).db
      raceKey = 2 ∧
    (raceRun raceKey raceStart [.lookup 0, .resolve 0, .lookup 1, .resolve 1]).phases =
      [.finished "id-0", .finished "id-0"] ∧
    countConversationsForKey
      (raceRun raceKey raceStart [.lookup 0, .resolve 0, .lookup 1, .resolve 1]).db
      raceKey = 1 := by decide

/-- Claim C2 (code bug): createByTenantId performs no conversation-ownership
check. Appending with tenant t1 into conversation c2 owned by tenant t2
succeeds and writes a cross-tenant message row instead of failing with
NotFound and writing nothing; appending to a nonexistent conversation
returns null (swallowed foreign-key error), not a propagated NotFound. -/
theorem C2_createByTenantId_cross_tenant :
    ((MessagesService.createByTenantId dbCross 7 "t1" "c2"
        ⟨"customer", none, "hello", none⟩).fst.isSome = true) ∧
    ((MessagesService.createByTenantId dbCross 7 "t1" "c2"
        ⟨"customer", none, "hello", none⟩).snd.fst.mensagens.map
        (fun m => (m.tenant_id, m.conversa_id)) = [("t1", "c2")]) ∧
    convRowB.tenant_id = "t2" ∧
    (MessagesService.createByTenantId dbCross 7 "t1" "nope"
        ⟨"customer", none, "hello", none⟩) = (none, dbCross, []) := by decide

/-- Claim C1 counterexample: a successful webhook-ingress append (the
channels route) persists the message yet emits no event at all, so
message:new is not broadcast on every successful append. -/
theorem C1_webhook_append_without_broadcast :
    ((webhookChannelsHandler dbHook 5 "whatsapp" "ch1" hookBody).res = .ok ⟨"id-0"⟩) ∧
    ((webhookChannelsHandler dbHook 5 "whatsapp" "ch1" hookBody).db.mensagens.length =
      dbHook.mensagens.length + 1) ∧
    ((webhookChannelsHandler dbHook 5 "whatsapp" "ch1" hookBody).trace.filter
      Effect.isEmit = []) := by decide

/-- Claim C7 counterexample: a successful status change and a successful
agent assignment both complete without emitting any socket event, so
conversation:updated is not emitted on status or assignment change. -/
theorem C7_update_without_event :
    ((ConversationsService.updateStatus dbT1 3 "c1" "u1" "resolved").res.isOk = true) ∧
    ((ConversationsService.updateStatus dbT1 3 "c1" "u1" "resolved").trace.filter
      Effect.isEmit = []) ∧
    ((ConversationsService.assignAgent dbT1 3 "c1" "u1" "ag1").res.isOk = true) ∧
    ((ConversationsService.assignAgent dbT1 3 "c1" "u1" "ag1").trace.filter
      Effect.isEmit = []) := by decide

/-- Claim C8 counterexample: with a shared secret configured and no
signature or secret header presented, the channels webhook route still
processes the request and persists the message, because that route is
registered without the validateWebhookSignature middleware. -/
theorem C8_channels_route_skips_signature :
    ((webhookChannelsRoute (fun _ _ => "h") (some "topsecret") none none "rawbody"
        dbHook 5 "whatsapp" "ch1" hookBody).res.isOk = true) ∧
    ((webhookChannelsRoute (fun _ _ => "h") (some "topsecret") none none "rawbody"
        dbHook 5 "whatsapp" "ch1" hookBody).db.mensagens.length = 1) := by decide

/-- Claim C4: a message created by append starts unread exactly when the
sender type is customer, on the REST create path, on createByTenantId, and
on the channels webhook route (which always inserts an unread customer
row). -/
theorem C4_initial_read_flag :
    (∀ (db : DB) (now : Nat) (uid : String) (d : CreateMessageDTO) (m : MessageResponse),
      (MessagesService.create db now uid d).res = .ok m →
      (m.read = false ↔ d.senderType = SenderType.customer)) ∧
    (∀ (db : DB) (now : Nat) (t cid : String) (d : WebhookMessageData) (m : MessageResponse),
      (MessagesService.createByTenantId db now t cid d).fst = some m →
      (m.read = false ↔ d.senderType = "customer")) ∧
    (∀ (db : DB) (now : Nat) (ty idp : String) (b : ChannelWebhookBody) (r : WebhookReceipt),
      (webhookChannelsHandler db now ty idp b).res = .ok r →
      ∃ row : MensagemRow,
        (webhookChannelsHandler db now ty idp b).db.mensagens = db.mensagens ++ [row] ∧
        row.lida = false ∧ row.remetente_tipo = "customer") := by
  refine ⟨?_, ?_, ?_⟩
  · intro db now uid d m h
    unfold MessagesService.create at h
    cases hg : getTenantId db uid with
    | none => rw [hg] at h; simp at h
    | some t =>
      rw [hg] at h
      dsimp only at h
      by_cases hc :
          (db.conversas.any (fun c => c.id == d.conversationId && c.tenant_id == t)) = true
      · rw [if_pos hc] at h
        injection h with h
        subst h
        cases hs : d.senderType <;> simp [mapMessageToResponse, hs]
      · rw [if_neg hc] at h
        simp at h
  · intro db now t cid d m h
    unfold MessagesService.createByTenantId at h
    dsimp only at h
    by_cases hc : (db.conversas.any (fun c => c.id == cid)) = true
    · rw [if_pos hc] at h
      injection h with h
      subst h
      by_cases hs : d.senderType = "customer" <;> simp [mapMessageToResponse, hs]
    · rw [if_neg hc] at h
      simp at h
  · intro db now ty idp b r h
    unfold webhookChannelsHandler at h ⊢
    cases hfind : db.canais.find? (fun k => k.id == idp && k.tipo == ty) with
    | none => rw [hfind] at h; simp at h
    | some chan =>
      rw [hfind] at h
      dsimp only at h ⊢
      cases hl : convKeyLookup db ((b.fromId <|> b.fromPhone).getD "") ty chan.tenant_id with
      | some cid2 => exact ⟨_, rfl, rfl, rfl⟩
      | none => exact ⟨_, rfl, rfl, rfl⟩

/-- Claim C5: with messageIds omitted, markAsRead transitions exactly the
currently-unread customer-authored rows of the conversation in the caller
tenant and returns their number; repeating the call returns 0; a named call
returns the number of named still-unread rows; and on the REST and socket
paths alike, a row that is not named and not customer-authored is never
changed. -/
theorem C5_markRead_scope (db : DB) (now : Nat) (u cid t : String) (s : Session)
    (h : getTenantId db u = some t) (hs : s.tenantId = t) :
    ((MessagesService.markAsRead db u cid none).res =
      .ok ((db.mensagens.filter (unreadCustomerHit t cid)).length)) ∧
    ((MessagesService.markAsRead db u cid none).db.mensagens =
      db.mensagens.map (fun m =>
        if unreadCustomerHit t cid m then { m with lida := true } else m)) ∧
    ((MessagesService.markAsRead
        (MessagesService.markAsRead db u cid none).db u cid none).res = .ok 0) ∧
    (∀ ids : List String, ids ≠ [] →
      (MessagesService.markAsRead db u cid (some ids)).res =
        .ok ((db.mensagens.filter (namedReadHit t cid ids)).length)) ∧
    (∀ ids : List String, List.Forall₂
      (fun (a b : MensagemRow) =>
        (a.id ∉ ids ∧ a.remetente_tipo ≠ "cliente" ∧ a.remetente_tipo ≠ "customer") → b = a)
      db.mensagens (MessagesService.markAsRead db u cid (some ids)).db.mensagens) ∧
    (∀ ids : List String, List.Forall₂
      (fun (a b : MensagemRow) =>
        (a.id ∉ ids ∧ a.remetente_tipo ≠ "cliente" ∧ a.remetente_tipo ≠ "customer") → b = a)
      db.mensagens (socketMessageRead db now s cid (some ids)).fst.mensagens) ∧
    ((socketMessageRead db now s cid none).fst.mensagens =
      db.mensagens.map (fun m =>
        if unreadCustomerHit t cid m then
          { m with lida := true, lida_em := some now } else m)) := by
  have hdb : (MessagesService.markAsRead db u cid none).db =
      { db with mensagens := db.mensagens.map (fun m =>
        if unreadCustomerHit t cid m then { m with lida := true } else m) } := by
    unfold MessagesService.markAsRead
    rw [h]
    dsimp only
    rw [if_neg (by decide)]
  refine ⟨?_, ?_, ?_, ?_, ?_, ?_, ?_⟩
  · unfold MessagesService.markAsRead
    rw [h]
    dsimp only
    rw [if_neg (by decide)]
  · rw [hdb]
  · rw [hdb]
    unfold MessagesService.markAsRead
    rw [show getTenantId { db with mensagens := db.mensagens.map (fun m =>
      if unreadCustomerHit t cid m then { m with lida := true } else m) } u =
      some t from h]
    dsimp only
    rw [if_neg (by decide)]
    rw [filter_unread_after_mark]
    rfl
  · intro ids hne
    unfold MessagesService.markAsRead
    rw [h]
    dsimp only [Option.getD]
    have hpos : ids.length > 0 := List.length_pos.mpr hne
    rw [if_pos hpos]
  · intro ids
    unfold MessagesService.markAsRead
    rw [h]
    dsimp only
    split
    · dsimp only
      rw [List.forall₂_map_right_iff, List.forall₂_same]
      intro x hx hcond
      rw [if_neg]
      intro hh
      exact hcond.1 (of_decide_eq_true hh).2.2.1
    · dsimp only
      rw [List.forall₂_map_right_iff, List.forall₂_same]
      intro x hx hcond
      rw [if_neg]
      intro hh
      rcases (of_decide_eq_true hh).2.2.2 with h1 | h1
      · exact hcond.2.1 h1
      · exact hcond.2.2 h1
  · intro ids
    unfold socketMessageRead
    dsimp only
    split
    · rw [List.forall₂_map_right_iff, List.forall₂_same]
      intro x hx hcond
      rw [if_neg]
      intro hh
      exact hcond.1 (of_decide_eq_true hh).2.2
    · rw [List.forall₂_map_right_iff, List.forall₂_same]
      intro x hx hcond
      rw [if_neg]
      intro hh
      rcases (of_decide_eq_true hh).2.2.2 with h1 | h1
      · exact hcond.2.1 h1
      · exact hcond.2.2 h1
  · unfold socketMessageRead
    rw [hs]
    dsimp only
    rw [if_neg (by decide)]

/-- Claim C6: the conversation:join handler grants room membership exactly
when a conversation with the requested id exists under the connection
tenant; on a cross-tenant (or unknown) id, the session is unchanged and,
not being a member of the room, receives no event addressed to it. -/
theorem C6_join_requires_ownership :
    ∀ (db : DB) (s : Session) (cid : String),
    ((db.conversas.any (fun c => c.id == cid && c.tenant_id == s.tenantId)) = true →
      socketConversationJoin db s cid =
        { s with rooms := s.rooms ++ [conversationRoom cid] }) ∧
    ((db.conversas.any (fun c => c.id == cid && c.tenant_id == s.tenantId)) = false →
      socketConversationJoin db s cid = s ∧
      (conversationRoom cid ∉ s.rooms →
        ∀ (sessions : List Session) (ev : String) (p : Payload),
          socketConversationJoin db s cid ∉
            emitRecipients sessions (.emit (conversationRoom cid) ev p) ∧
          ∀ sid2 : String, socketConversationJoin db s cid ∉
            emitRecipients sessions (.emitFrom sid2 (conversationRoom cid) ev p))) := by
  intro db s cid
  constructor
  · intro hc
    unfold socketConversationJoin
    rw [if_pos hc]
  · intro hc
    have hj : socketConversationJoin db s cid = s := by
      unfold socketConversationJoin
      rw [if_neg (by simp [hc])]
    refine ⟨hj, fun hr sessions ev p => ⟨?_, fun sid2 => ?_⟩⟩
    · rw [hj]
      intro hmem
      have h2 := (List.mem_filter.mp hmem).2
      exact hr (of_decide_eq_true h2)
    · rw [hj]
      intro hmem
      have h2 := (List.mem_filter.mp hmem).2
      exact hr (of_decide_eq_true h2).1

/-- Claim C10: the typing handlers relay the client-supplied conversation id
verbatim, with no tenant-ownership or membership check on the sender; every
member of the target room other than the sender receives the event, even
when it belongs to a conversation of another tenant. -/
theorem C10_typing_relay_unchecked :
    ∀ (db : DB) (s : Session) (cid : String),
    socketTypingStart db s cid =
      [.emitFrom s.sid (conversationRoom cid) "typing:start"
        (.typingStartData cid s.userId
          (((db.users.find? (fun u => u.id == s.userId)).map (·.name)).getD "Usuário"))] ∧
    socketTypingStop s cid =
      [.emitFrom s.sid (conversationRoom cid) "typing:stop"
        (.typingStopData cid s.userId)] ∧
    ∀ (sessions : List Session) (t : Session), t ∈ sessions → t.sid ≠ s.sid →
      conversationRoom cid ∈ t.rooms →
      ∀ e ∈ socketTypingStart db s cid, t ∈ emitRecipients sessions e := by
  intro db s cid
  refine ⟨rfl, rfl, ?_⟩
  intro sessions t ht hsid hr e he
  simp only [socketTypingStart, List.mem_singleton] at he
  subst he
  exact List.mem_filter.mpr ⟨ht, decide_eq_true ⟨hr, hsid⟩⟩

/-! Witnesses: each theorem with a hypothesis evaluated on a concrete input. -/

theorem C1_rest_broadcast_order_webhook_silent_witness :
    ((MessagesService.create dbT1 5 "u1" c1Dto).res = .ok c1Resp) ∧
    (∃ row : MensagemRow,
      c1Resp = mapMessageToResponse row ∧
      (MessagesService.create dbT1 5 "u1" c1Dto).db.mensagens = dbT1.mensagens ++ [row] ∧
      (MessagesService.create dbT1 5 "u1" c1Dto).trace =
        [.insertMensagem row,
         .updatePreview c1Dto.conversationId (c1Dto.content.take 100),
         .emit (conversationRoom c1Dto.conversationId) "message:new" (.message c1Resp),
         .emit (tenantRoom c1Resp.tenant_id) "message:new" (.message c1Resp)]) :=
  ⟨by decide,
   C1_rest_broadcast_order_webhook_silent.1 dbT1 5 "u1" c1Dto c1Resp (by decide)⟩

theorem C3_tenant_isolation_witness :
    (getTenantId dbIso "u2" = some "t2") ∧
    ((∀ p : ListConversationsParams, p.userId = "u2" →
        ∀ c ∈ (ConversationsService.list dbIso p).fst, c.tenant_id = "t2") ∧
     (∀ id c, ConversationsService.getById dbIso id "u2" = .ok c → c.tenant_id = "t2") ∧
     (∀ p : ListMessagesParams, p.userId = "u2" →
        ∀ out, MessagesService.listByConversation dbIso p = .ok out →
          ∀ m ∈ out.fst, m.tenant_id = "t2") ∧
     (∀ id m, MessagesService.getById dbIso id "u2" = .ok m → m.tenant_id = "t2") ∧
     (∀ cid, MessagesService.getUnreadCount dbIso "u2" cid =
        ((dbIso.mensagens.filter (fun m => m.tenant_id == "t2")).filter
          (unreadCustomerHit "t2" cid)).length) ∧
     (∀ cid ids, List.Forall₂
        (fun (a b : MensagemRow) => a.tenant_id ≠ "t2" → b = a)
        dbIso.mensagens (MessagesService.markAsRead dbIso "u2" cid ids).db.mensagens) ∧
     (∀ now d m, (MessagesService.create dbIso now "u2" d).res = .ok m →
        m.tenant_id = "t2" ∧
        ∃ c ∈ dbIso.conversas, c.id = d.conversationId ∧ c.tenant_id = "t2")) :=
  ⟨by decide, C3_tenant_isolation dbIso "u2" "t2" (by decide)⟩

theorem C4_initial_read_flag_witness :
    ((MessagesService.create dbT1 5 "u1" c4Dto).res = .ok c4Resp) ∧
    (c4Resp.read = false ↔ c4Dto.senderType = SenderType.customer) :=
  ⟨by decide, C4_initial_read_flag.1 dbT1 5 "u1" c4Dto c4Resp (by decide)⟩

theorem C5_markRead_scope_witness :
    (getTenantId dbIso "u2" = some "t2") ∧ (viewerB.tenantId = "t2") ∧
    (((MessagesService.markAsRead dbIso "u2" "c2" none).res =
        .ok ((dbIso.mensagens.filter (unreadCustomerHit "t2" "c2")).length)) ∧
     ((MessagesService.markAsRead dbIso "u2" "c2" none).db.mensagens =
        dbIso.mensagens.map (fun m =>
          if unreadCustomerHit "t2" "c2" m then { m with lida := true } else m)) ∧
     ((MessagesService.markAsRead
         (MessagesService.markAsRead dbIso "u2" "c2" none).db "u2" "c2" none).res = .ok 0) ∧
     (∀ ids : List String, ids ≠ [] →
        (MessagesService.markAsRead dbIso "u2" "c2" (some ids)).res =
          .ok ((dbIso.mensagens.filter (namedReadHit "t2" "c2" ids)).length)) ∧
     (∀ ids : List String, List.Forall₂
        (fun (a b : MensagemRow) =>
          (a.id ∉ ids ∧ a.remetente_tipo ≠ "cliente" ∧ a.remetente_tipo ≠ "customer") → b = a)
        dbIso.mensagens (MessagesService.markAsRead dbIso "u2" "c2" (some ids)).db.mensagens) ∧
     (∀ ids : List String, List.Forall₂
        (fun (a b : MensagemRow) =>
          (a.id ∉ ids ∧ a.remetente_tipo ≠ "cliente" ∧ a.remetente_tipo ≠ "customer") → b = a)
        dbIso.mensagens (socketMessageRead dbIso 9 viewerB "c2" (some ids)).fst.mensagens) ∧
     ((socketMessageRead dbIso 9 viewerB "c2" none).fst.mensagens =
        dbIso.mensagens.map (fun m =>
          if unreadCustomerHit "t2" "c2" m then
            { m with lida := true, lida_em := some 9 } else m))) :=
  ⟨by decide, rfl, C5_markRead_scope dbIso 9 "u2" "c2" "t2" viewerB (by decide) rfl⟩

theorem C6_join_requires_ownership_witness :
    ((dbIso.conversas.any (fun c => c.id == "c2" && c.tenant_id == senderA.tenantId)) = false) ∧
    (socketConversationJoin dbIso senderA "c2" = senderA ∧
      (conversationRoom "c2" ∉ senderA.rooms →
        ∀ (sessions : List Session) (ev : String) (p : Payload),
          socketConversationJoin dbIso senderA "c2" ∉
            emitRecipients sessions (.emit (conversationRoom "c2") ev p) ∧
          ∀ sid2 : String, socketConversationJoin dbIso senderA "c2" ∉
            emitRecipients sessions (.emitFrom sid2 (conversationRoom "c2") ev p))) :=
  ⟨by decide, (C6_join_requires_ownership dbIso senderA "c2").2 (by decide)⟩

theorem C8_signature_gate_witness :
    (validateWebhookSignature (fun _ _ => "aa") (some "s") (some "s") none "b" = .pass) ∧
    ((some "s" : Option String) = none ∨ ∃ sec, (some "s" : Option String) = some sec ∧
      (((some "s" : Option String) <|> none) = some sec ∨
       ((some "s" : Option String) <|> none) = some ("sha256=" ++ (fun _ _ => "aa") sec "b"))) :=
  ⟨by decide,
   C8_signature_gate.2.2.2.1 (fun _ _ => "aa") (some "s") (some "s") none "b" (by decide)⟩

theorem C10_typing_relay_unchecked_witness :
    (viewerB ∈ [viewerB]) ∧ (viewerB.sid ≠ senderA.sid) ∧
    (conversationRoom "c9" ∈ viewerB.rooms) ∧
    (typingEffB ∈ socketTypingStart dbIso senderA "c9") ∧
    (viewerB ∈ emitRecipients [viewerB] typingEffB) :=
  ⟨by decide, by decide, by decide, by decide,
   (C10_typing_relay_unchecked dbIso senderA "c9").2.2 [viewerB] viewerB
     (by decide) (by decide) (by decide) typingEffB (by decide)⟩

end Omni
